import Mathlib

/-!
Shallow embedding of `src/main.py` (stock news monitoring pipeline).

Python values are modelled as follows:
* a daily bar (`{"4. close": <string>}`) is a `Bar` whose `close` field is
  `some q` when the string parses as a number with value `q : ℚ`, and `none`
  when `float(...)` would raise `ValueError` (non-numeric close);
* the provider's time-series mapping, iterated in insertion order, is a
  `List (String × Bar)` (date key × bar);
* Python's `round` on an exact value is `pyRound` (round half to even);
* exceptions are `Except` with a `PipelineError` error type whose
  constructors follow the spec's error taxonomy; each constructor's comment
  records which concrete Python exception it stands for;
* the side effects of the `__main__` block (which external calls are made,
  which SMS sends are attempted) are recorded in a `RunResult` computed by
  `run` from an `Env` describing the responses of the external services.
-/

/-- Error taxonomy of the pipeline.  Each constructor records the concrete
Python exception it models in `src/main.py`. -/
inductive PipelineError where
  /-- `requests.exceptions.RequestException` (HTTP failure, timeout,
  non-success status via `raise_for_status`). -/
  | ProviderError : PipelineError
  /-- `KeyError` raised by `response.json()["Time Series (Daily)"]` when the
  series key is absent. -/
  | DataShapeError : PipelineError
  /-- `IndexError` raised by `data_list[0]` / `data_list[1]` when the price
  series has too few entries. -/
  | InsufficientDataError : PipelineError
  /-- `ValueError` from `float(...)` on a non-numeric close string, or
  `ZeroDivisionError` from dividing by a zero closing price. -/
  | InvalidPriceError : PipelineError
  deriving DecidableEq, Repr

/-- One daily bar: the `"4. close"` field of a time-series entry.
`some q` models a numeric close string with value `q`; `none` models a
string on which Python's `float` raises `ValueError`. -/
structure Bar where
  close : Option ℚ
  deriving DecidableEq, Repr

/-- Python's `round` (no `ndigits`) applied to an exact rational: round half
to even, returning an integer. -/
def pyRound (q : ℚ) : ℤ :=
  if q - ⌊q⌋ < 1/2 then ⌊q⌋
  else if 1/2 < q - ⌊q⌋ then ⌊q⌋ + 1
  else if ⌊q⌋ % 2 = 0 then ⌊q⌋ else ⌊q⌋ + 1

/-- Emoji returned for a price rise, `"🔺"` in the source. -/
def UP_EMOJI : String := "🔺"

/-- Emoji returned for a price drop (or no change), `"🔻"` in the source. -/
def DOWN_EMOJI : String := "🔻"

/-- `STOCK_NAME` constant from `src/main.py`. -/
def STOCK_NAME : String := "TSLA"

/-- `PERCENTAGE_THRESHOLD` constant from `src/main.py`. -/
def PERCENTAGE_THRESHOLD : ℤ := 1

/-- Outcome of an HTTP GET as seen by the caller once `raise_for_status`
has run: either a decoded JSON body, or a raised
`requests.exceptions.RequestException` (connection failure, timeout, or
non-success status). -/
inductive HttpResult (α : Type) where
  | ok (body : α)
  | transportError
  deriving DecidableEq, Repr

/-- `get_stock_data` from `src/main.py`, lines 25–45.  The request's decoded
body is modelled as `Option (List (String × Bar))`: the value of the
`"Time Series (Daily)"` key when present, `none` when the key is absent
(in which case the subscript raises `KeyError`). -/
def get_stock_data (resp : HttpResult (Option (List (String × Bar)))) :
    Except PipelineError (List (String × Bar)) :=
  match resp with
  | .transportError => .error .ProviderError
  | .ok body =>
    match body with
    | none => .error .DataShapeError
    | some series => .ok series

/-- `calculate_price_difference` from `src/main.py`, lines 48–67.
`data_list = [value for (key, value) in data.items()]`, then the closes of
entries 0 and 1 are converted with `float`, and the difference, emoji and
rounded percentage are computed.  Failures are reported in the order Python
raises them: indexing entry 0, parsing its close, indexing entry 1, parsing
its close, then the zero division at the `difference / price` line. -/
def calculate_price_difference (data : List (String × Bar)) :
    Except PipelineError (ℤ × String) :=
  let data_list := data.map Prod.snd
  match data_list.get? 0 with
  | none => .error .InsufficientDataError
  | some bar0 =>
    match bar0.close with
    | none => .error .InvalidPriceError
    | some yesterday_closing_price =>
      match data_list.get? 1 with
      | none => .error .InsufficientDataError
      | some bar1 =>
        match bar1.close with
        | none => .error .InvalidPriceError
        | some day_before_yesterday_closing_price =>
          let difference :=
            yesterday_closing_price - day_before_yesterday_closing_price
          let up_down := if 0 < difference then UP_EMOJI else DOWN_EMOJI
          if yesterday_closing_price = 0 then .error .InvalidPriceError
          else
            .ok (pyRound (difference / yesterday_closing_price * 100), up_down)

/-- A JSON value bound to an article's `title` or `description` key. -/
inductive JsonVal where
  | str (s : String)
  | null
  deriving DecidableEq, Repr

/-- How a `JsonVal` is rendered inside a Python f-string: a string renders
as itself, `None` renders as the text `"None"`. -/
def JsonVal.render : JsonVal → String
  | .str s => s
  | .null => "None"

/-- A news article as consumed by the formatter.  A field is `none` when the
key is absent from the article mapping, and `some v` when the key is present
and bound to `v` (possibly `null`); `dict.get(key, default)` returns the
default only in the `none` case. -/
structure Article where
  title : Option JsonVal
  description : Option JsonVal
  deriving DecidableEq, Repr

/-- `get_news_articles` from `src/main.py`, lines 70–93.  The decoded body is
modelled as the list bound to the `"articles"` key; the function truncates it
to `num_articles` (default 3 at the call site). -/
def get_news_articles (resp : HttpResult (List Article)) (num_articles : ℕ) :
    Except PipelineError (List Article) :=
  match resp with
  | .transportError => .error .ProviderError
  | .ok articles => .ok (articles.take num_articles)

/-- `format_news_articles` from `src/main.py`, lines 96–114: starts from an
empty list and appends, for each article in order, the f-string
`f"{stock_symbol}: {up_down_emoji}{diff_percent}%\nManchete: {headline}. \nResumo: {brief}"`
where `headline = article.get("title", "Título não disponível")` and
`brief = article.get("description", "Descrição não disponível")`. -/
def format_news_articles (articles : List Article) (stock_symbol : String)
    (diff_percent : ℤ) (up_down_emoji : String) : List String :=
  articles.foldl
    (fun formatted_messages article =>
      let headline :=
        match article.title with
        | some v => v.render
        | none => "Título não disponível"
      let brief :=
        match article.description with
        | some v => v.render
        | none => "Descrição não disponível"
      let message := stock_symbol ++ ": " ++ up_down_emoji ++
        toString diff_percent ++ "%\nManchete: " ++ headline ++
        ". \nResumo: " ++ brief
      formatted_messages ++ [message])
    []

/-- The headline picked by the formatter:
`article.get("title", "Título não disponível")`, rendered as text. -/
def articleHeadline (article : Article) : String :=
  match article.title with
  | some v => v.render
  | none => "Título não disponível"

/-- The summary picked by the formatter:
`article.get("description", "Descrição não disponível")`, rendered as
text. -/
def articleBrief (article : Article) : String :=
  match article.description with
  | some v => v.render
  | none => "Descrição não disponível"

/-- The single message body built for one article. -/
def formatMessage (stock_symbol up_down_emoji : String) (diff_percent : ℤ)
    (article : Article) : String :=
  stock_symbol ++ ": " ++ up_down_emoji ++ toString diff_percent ++
    "%\nManchete: " ++ articleHeadline article ++ ". \nResumo: " ++
    articleBrief article

/-- The `for message_body in messages` loop of `send_sms_messages`
(`src/main.py`, lines 117–137), with the loop index made explicit.  Whether
the `i`-th `client.messages.create` call succeeds or raises is given by the
oracle `send_ok`; either way the loop records the attempt and moves on
(`try`/`except` around each send). -/
def sendRun (send_ok : ℕ → Bool) : ℕ → List String → List (String × Bool)
  | _, [] => []
  | i, message_body :: rest =>
    (message_body, send_ok i) :: sendRun send_ok (i + 1) rest

/-- `send_sms_messages` from `src/main.py`, lines 117–137: one send attempt
per message, each wrapped in its own `try`/`except`.  Returns the list of
attempts in the order they are made (message body, success flag). -/
def send_sms_messages (send_ok : ℕ → Bool) (messages : List String) :
    List (String × Bool) :=
  sendRun send_ok 0 messages

/-- Responses of the three external services for one run: the Alpha Vantage
call, the NewsAPI call, and the per-send outcome of the Twilio client. -/
structure Env where
  stockResp : HttpResult (Option (List (String × Bar)))
  newsResp : HttpResult (List Article)
  send_ok : ℕ → Bool

/-- Terminal state of one run of the `__main__` block. -/
inductive Outcome where
  /-- The run stopped without completing the pipeline: either the caught
  `RequestException` branch (`print` + `exit()`) for `ProviderError`, or an
  uncaught exception terminating the process for the other errors. -/
  | aborted (e : PipelineError)
  /-- The threshold gate failed; the "no significant change" report was
  printed. -/
  | noSignificantChange
  /-- The article list was empty after the fetch; the "no relevant
  articles" report was printed. -/
  | noRelevantArticles
  /-- Messages were formatted and the send loop ran to completion. -/
  | done
  deriving DecidableEq, Repr

/-- Observable behavior of one run: terminal state, whether the news
endpoint was called, whether the formatter ran, the SMS send attempts made,
and the price change computed by the calculator (if it returned). -/
structure RunResult where
  outcome : Outcome
  newsFetched : Bool
  formatterCalled : Bool
  sendAttempts : List (String × Bool)
  computedChange : Option (ℤ × String)
  deriving DecidableEq, Repr

/-- The `__main__` block of `src/main.py`, lines 141–169: fetch the price
series (only `RequestException` is caught; `KeyError`, `IndexError`,
`ValueError` and `ZeroDivisionError` propagate — both cases end the run
with no further work), compute the change, apply the threshold gate
`abs(diff_percent) > PERCENTAGE_THRESHOLD`, fetch news degrading to `[]` on
`RequestException`, and either report no relevant articles or format and
send. -/
def run (env : Env) : RunResult :=
  match get_stock_data env.stockResp with
  | .error e => ⟨.aborted e, false, false, [], none⟩
  | .ok stock_data =>
    match calculate_price_difference stock_data with
    | .error e => ⟨.aborted e, false, false, [], none⟩
    | .ok (diff_percent, up_down) =>
      if PERCENTAGE_THRESHOLD < |diff_percent| then
        let articles :=
          match get_news_articles env.newsResp 3 with
          | .error _ => []
          | .ok arts => arts
        if articles = [] then
          ⟨.noRelevantArticles, true, false, [], some (diff_percent, up_down)⟩
        else
          let formatted_messages :=
            format_news_articles articles STOCK_NAME diff_percent up_down
          ⟨.done, true, true, send_sms_messages env.send_ok formatted_messages,
            some (diff_percent, up_down)⟩
      else
        ⟨.noSignificantChange, false, false, [], some (diff_percent, up_down)⟩

/-- Price series with a one-percent rise (closes 200 and 198): the
threshold boundary case. -/
def seriesOnePct : List (String × Bar) :=
  [("2025-01-02", ⟨some 200⟩), ("2025-01-01", ⟨some 198⟩)]

/-- A one-entry price series whose close is a non-numeric string. -/
def seriesOneBad : List (String × Bar) := [("2025-01-02", ⟨none⟩)]

/-- A one-entry price series whose close is zero. -/
def seriesOneZero : List (String × Bar) := [("2025-01-02", ⟨some 0⟩)]

/-- A two-entry price series whose most recent close is zero. -/
def seriesZeroFirst : List (String × Bar) :=
  [("2025-01-02", ⟨some 0⟩), ("2025-01-01", ⟨some 210⟩)]

/-- Sample price series: most recent close 219, previous close 210. -/
def series219 : List (String × Bar) :=
  [("2025-01-02", ⟨some 219⟩), ("2025-01-01", ⟨some 210⟩)]

/-- Sample price series: most recent close 1000, previous close 999 (a rise
smaller than half a percent). -/
def series1000 : List (String × Bar) :=
  [("2025-01-02", ⟨some 1000⟩), ("2025-01-01", ⟨some 999⟩)]

/-- Sample price series with two equal closes (no change). -/
def seriesFlat : List (String × Bar) :=
  [("2025-01-02", ⟨some 200⟩), ("2025-01-01", ⟨some 200⟩)]

/-- A rational that rounds to a positive integer is positive. -/
theorem pyRound_pos {q : ℚ} (h : 0 < pyRound q) : 0 < q := by
  have hfl : (⌊q⌋ : ℚ) ≤ q := Int.floor_le q
  have hfu : q < ⌊q⌋ + 1 := Int.lt_floor_add_one q
  unfold pyRound at h
  split_ifs at h with h1 h2 h3
  · have hc : (1 : ℚ) ≤ (⌊q⌋ : ℚ) := by exact_mod_cast h
    linarith
  · have hz : (0 : ℚ) ≤ (⌊q⌋ : ℚ) := by
      have : (0 : ℤ) ≤ ⌊q⌋ := by omega
      exact_mod_cast this
    linarith [not_lt.mp h1]
  · have hc : (1 : ℚ) ≤ (⌊q⌋ : ℚ) := by exact_mod_cast h
    linarith
  · have hz : (0 : ℚ) ≤ (⌊q⌋ : ℚ) := by
      have : (0 : ℤ) ≤ ⌊q⌋ := by omega
      exact_mod_cast this
    linarith [not_lt.mp h1]

/-- A rational that rounds to a negative integer is negative. -/
theorem pyRound_neg {q : ℚ} (h : pyRound q < 0) : q < 0 := by
  have hfl : (⌊q⌋ : ℚ) ≤ q := Int.floor_le q
  have hfu : q < ⌊q⌋ + 1 := Int.lt_floor_add_one q
  unfold pyRound at h
  split_ifs at h with h1 h2 h3
  · have hc : (⌊q⌋ : ℚ) ≤ -1 := by
      have : ⌊q⌋ ≤ -1 := by omega
      exact_mod_cast this
    linarith
  · have hc : (⌊q⌋ : ℚ) ≤ -2 := by
      have : ⌊q⌋ ≤ -2 := by omega
      exact_mod_cast this
    linarith
  · have hc : (⌊q⌋ : ℚ) ≤ -1 := by
      have : ⌊q⌋ ≤ -1 := by omega
      exact_mod_cast this
    linarith [not_lt.mp h2]
  · have hc : (⌊q⌋ : ℚ) ≤ -2 := by
      have : ⌊q⌋ ≤ -2 := by omega
      exact_mod_cast this
    linarith

/-- What `calculate_price_difference` returns when the first two entries
carry numeric closes `c0` (most recent) and `c1`, with `c0 ≠ 0`. -/
theorem calculate_price_difference_eq (data : List (String × Bar))
    (c0 c1 : ℚ)
    (h0 : (data.map Prod.snd).get? 0 = some ⟨some c0⟩)
    (h1 : (data.map Prod.snd).get? 1 = some ⟨some c1⟩)
    (hc0 : c0 ≠ 0) :
    calculate_price_difference data =
      .ok (pyRound ((c0 - c1) / c0 * 100),
        if 0 < c0 - c1 then UP_EMOJI else DOWN_EMOJI) := by
  unfold calculate_price_difference
  simp only [h0, h1]
  simp [hc0]

/-- C1: for a price series whose first two iteration-order entries have
closes `c0` (most recent, nonzero) and `c1`, the calculator returns
`percent = round((c0 - c1) / c0 * 100)` and direction Up exactly when
`c0 - c1 > 0`, Down otherwise (zero difference gives Down). -/
theorem calc_percent_formula (data : List (String × Bar)) (c0 c1 : ℚ)
    (h0 : (data.map Prod.snd).get? 0 = some ⟨some c0⟩)
    (h1 : (data.map Prod.snd).get? 1 = some ⟨some c1⟩)
    (hc0 : c0 ≠ 0) :
    calculate_price_difference data =
      .ok (pyRound ((c0 - c1) / c0 * 100),
        if 0 < c0 - c1 then UP_EMOJI else DOWN_EMOJI) :=
  calculate_price_difference_eq data c0 c1 h0 h1 hc0

/-- C1 witness: on closes `[219.00, 210.00]` the calculator returns
percent 4 with direction Up. -/
theorem calc_percent_formula_witness :
    (219 : ℚ) ≠ 0 ∧
    calculate_price_difference series219 = .ok (4, "🔺") := by
  refine ⟨by norm_num, ?_⟩
  have h := calc_percent_formula series219 219 210 rfl rfl (by norm_num)
  rw [h]
  norm_num [pyRound, UP_EMOJI]

/-- C4 counterexample: on closes `[1000.00, 999.00]` the calculator
returns percent 0 — which is not positive — together with direction Up,
so a non-positive percent does not imply direction Down. -/
theorem calc_sign_mismatch :
    calculate_price_difference series1000 = .ok (0, UP_EMOJI) ∧
    ¬ (0 : ℤ) > 0 ∧ UP_EMOJI ≠ DOWN_EMOJI := by
  refine ⟨?_, by norm_num, by decide⟩
  have h := calculate_price_difference_eq series1000 1000 999 rfl rfl
    (by norm_num)
  rw [h]
  norm_num [pyRound]

/-- C4 amended: for a series with at least 2 numeric-close entries and a
positive most-recent close, a positive percent implies direction Up and a
negative percent implies direction Down; a percent of 0 can be returned
with direction Up (when the price rose by less than half a percent), so
"non-positive implies Down" holds only for strictly negative percents. -/
theorem calc_sign_direction (data : List (String × Bar)) (c0 c1 : ℚ)
    (h0 : (data.map Prod.snd).get? 0 = some ⟨some c0⟩)
    (h1 : (data.map Prod.snd).get? 1 = some ⟨some c1⟩)
    (hpos : 0 < c0)
    (percent : ℤ) (dir : String)
    (hres : calculate_price_difference data = .ok (percent, dir)) :
    (0 < percent → dir = UP_EMOJI) ∧ (percent < 0 → dir = DOWN_EMOJI) := by
  rw [calculate_price_difference_eq data c0 c1 h0 h1 (ne_of_gt hpos)] at hres
  rw [Except.ok.injEq, Prod.mk.injEq] at hres
  obtain ⟨hp, hd⟩ := hres
  constructor
  · intro hgt
    have hq : 0 < (c0 - c1) / c0 * 100 := pyRound_pos (hp ▸ hgt)
    have hdiv : 0 < (c0 - c1) / c0 := by nlinarith
    have hdf : 0 < c0 - c1 := by
      rcases div_pos_iff.mp hdiv with ⟨ha, _⟩ | ⟨_, hb⟩
      · exact ha
      · linarith
    rw [← hd, if_pos hdf]
  · intro hlt
    have hq : (c0 - c1) / c0 * 100 < 0 := pyRound_neg (hp ▸ hlt)
    have hdiv : (c0 - c1) / c0 < 0 := by nlinarith
    have hdf : ¬ 0 < c0 - c1 := by
      intro hcon
      have : 0 < (c0 - c1) / c0 := div_pos hcon hpos
      linarith
    rw [← hd, if_neg hdf]

/-- C4 amended witness: on closes `[219.00, 210.00]` (positive most-recent
close), the returned percent 4 is positive and the direction is Up. -/
theorem calc_sign_direction_witness :
    (0 : ℚ) < 219 ∧
    calculate_price_difference series219 = .ok (4, UP_EMOJI) ∧
    ((0 : ℤ) < 4 → UP_EMOJI = UP_EMOJI) := by
  have hres : calculate_price_difference series219 = .ok (4, UP_EMOJI) := by
    rw [calculate_price_difference_eq series219 219 210 rfl rfl (by norm_num)]
    norm_num [pyRound]
  exact ⟨by norm_num, hres,
    (calc_sign_direction series219 219 210 rfl rfl (by norm_num) 4 UP_EMOJI
      hres).1⟩

/-- Environment for a run with a flat price series (percent 0). -/
def envFlat : Env := ⟨.ok (some seriesFlat), .ok [], fun _ => true⟩

/-- Environment for a run with a one-percent rise (threshold boundary). -/
def envBoundary : Env := ⟨.ok (some seriesOnePct), .ok [], fun _ => true⟩

/-- Environment whose price response lacks the series key. -/
def envNoSeriesKey : Env := ⟨.ok none, .ok [], fun _ => true⟩

/-- Environment with a significant price change whose news call raises a
transport error. -/
def envNewsDown : Env := ⟨.ok (some series219), .transportError, fun _ => true⟩

/-- Environment whose price series has a single non-numeric entry. -/
def envOneBad : Env := ⟨.ok (some seriesOneBad), .ok [], fun _ => true⟩

/-- Environment whose price series is empty. -/
def envEmptySeries : Env := ⟨.ok (some []), .ok [], fun _ => true⟩

/-- C2: whenever the computed percent satisfies
`abs(percent) <= PERCENTAGE_THRESHOLD`, the run stops with the
no-significant-change report: the news endpoint is not called, the
formatter does not run and no SMS send is attempted. -/
theorem threshold_gate_blocks_pipeline (env : Env)
    (stock_data : List (String × Bar)) (diff_percent : ℤ) (up_down : String)
    (hs : get_stock_data env.stockResp = .ok stock_data)
    (hc : calculate_price_difference stock_data = .ok (diff_percent, up_down))
    (hth : |diff_percent| ≤ PERCENTAGE_THRESHOLD) :
    run env =
      ⟨.noSignificantChange, false, false, [], some (diff_percent, up_down)⟩ := by
  unfold run
  simp only [hs, hc]
  rw [if_neg (not_lt.mpr hth)]

/-- C2 witness: a one-percent rise (percent 1, threshold 1, the boundary
case) stops at the no-significant-change report with nothing sent. -/
theorem threshold_gate_blocks_pipeline_witness :
    |(1 : ℤ)| ≤ PERCENTAGE_THRESHOLD ∧
    run envBoundary =
      ⟨.noSignificantChange, false, false, [], some (1, UP_EMOJI)⟩ := by
  have hc : calculate_price_difference seriesOnePct = .ok (1, UP_EMOJI) := by
    rw [calculate_price_difference_eq seriesOnePct 200 198 rfl rfl
      (by norm_num)]
    norm_num [pyRound]
  exact ⟨by decide,
    threshold_gate_blocks_pipeline envBoundary seriesOnePct 1 UP_EMOJI rfl hc
      (by decide)⟩

/-- C9: a price response without the daily-series key makes the Price
Fetcher fail with `DataShapeError`, and every price-fetch failure is fatal:
the run ends in the aborted state with no change computed, no news fetched,
no formatting and no sends. -/
theorem price_fetch_failures_fatal (env : Env) :
    (env.stockResp = .ok none →
      get_stock_data env.stockResp = .error .DataShapeError) ∧
    ∀ e, get_stock_data env.stockResp = .error e →
      run env = ⟨.aborted e, false, false, [], none⟩ := by
  constructor
  · intro h
    rw [h]
    rfl
  · intro e he
    unfold run
    simp only [he]

/-- C9 witness: a response body without the series key aborts the run with
`DataShapeError` and no partial output. -/
theorem price_fetch_failures_fatal_witness :
    envNoSeriesKey.stockResp = .ok none ∧
    get_stock_data envNoSeriesKey.stockResp = .error .DataShapeError ∧
    run envNoSeriesKey = ⟨.aborted .DataShapeError, false, false, [], none⟩ := by
  have h := price_fetch_failures_fatal envNoSeriesKey
  have h1 := h.1 rfl
  exact ⟨rfl, h1, h.2 _ h1⟩

/-- C5: when the threshold gate passes and the news fetch raises a
transport error, the failure is not propagated: the article list degrades
to empty and the run still terminates normally with the
no-relevant-articles report and no sends. -/
theorem news_failure_degrades (env : Env)
    (stock_data : List (String × Bar)) (diff_percent : ℤ) (up_down : String)
    (hs : get_stock_data env.stockResp = .ok stock_data)
    (hc : calculate_price_difference stock_data = .ok (diff_percent, up_down))
    (hth : PERCENTAGE_THRESHOLD < |diff_percent|)
    (hn : env.newsResp = .transportError) :
    run env =
      ⟨.noRelevantArticles, true, false, [], some (diff_percent, up_down)⟩ := by
  unfold run
  simp only [hs, hc]
  rw [if_pos hth]
  simp [get_news_articles, hn]

/-- C5 witness: a 4% rise whose news call fails still reaches the
no-relevant-articles report with no messages sent. -/
theorem news_failure_degrades_witness :
    PERCENTAGE_THRESHOLD < |(4 : ℤ)| ∧
    run envNewsDown =
      ⟨.noRelevantArticles, true, false, [], some (4, UP_EMOJI)⟩ := by
  have hc : calculate_price_difference series219 = .ok (4, UP_EMOJI) := by
    rw [calculate_price_difference_eq series219 219 210 rfl rfl (by norm_num)]
    norm_num [pyRound]
  exact ⟨by decide,
    news_failure_degrades envNewsDown series219 4 UP_EMOJI rfl hc (by decide)
      rfl⟩

/-- A series shorter than 2 entries makes the calculator fail, with
`InsufficientDataError` or `InvalidPriceError`. -/
theorem calculate_short_error (data : List (String × Bar))
    (hlen : data.length < 2) :
    calculate_price_difference data = .error .InsufficientDataError ∨
    calculate_price_difference data = .error .InvalidPriceError := by
  match data with
  | [] => exact Or.inl rfl
  | [(k, b)] =>
    cases hb : b.close with
    | none =>
      refine Or.inr ?_
      unfold calculate_price_difference
      simp [hb]
    | some c =>
      refine Or.inl ?_
      unfold calculate_price_difference
      simp [hb]
  | _ :: _ :: _ => simp only [List.length_cons] at hlen; omega

/-- A series shorter than 2 entries in which every present close is
numeric fails with `InsufficientDataError`. -/
theorem calculate_short_insufficient (data : List (String × Bar))
    (hlen : data.length < 2)
    (hnum : ∀ b ∈ data, (Prod.snd b).close.isSome) :
    calculate_price_difference data = .error .InsufficientDataError := by
  match data with
  | [] => rfl
  | [(k, b)] =>
    have hb := hnum (k, b) (by simp)
    obtain ⟨c, hc⟩ := Option.isSome_iff_exists.mp hb
    unfold calculate_price_difference
    simp [show b.close = some c from hc]
  | _ :: _ :: _ => simp only [List.length_cons] at hlen; omega

/-- C3 counterexample: a one-entry series whose close is a non-numeric
string has fewer than 2 entries, yet the run aborts with
`InvalidPriceError` (Python's `ValueError` from `float`), not with
`InsufficientDataError`. -/
theorem short_series_error_mismatch :
    seriesOneBad.length < 2 ∧
    run envOneBad = ⟨.aborted .InvalidPriceError, false, false, [], none⟩ ∧
    PipelineError.InvalidPriceError ≠ PipelineError.InsufficientDataError := by
  exact ⟨by decide, rfl, by decide⟩

/-- C3 amended: a series with fewer than 2 entries always aborts the run
before any percent or direction is produced; the error is
`InsufficientDataError` whenever every present close is numeric (in
particular for the empty series), while a one-entry series with a
non-numeric close aborts with `InvalidPriceError` instead. -/
theorem short_series_never_computes (env : Env)
    (stock_data : List (String × Bar))
    (hs : get_stock_data env.stockResp = .ok stock_data)
    (hlen : stock_data.length < 2) :
    (run env).computedChange = none ∧
    (∃ e, run env = ⟨.aborted e, false, false, [], none⟩) ∧
    ((∀ b ∈ stock_data, (Prod.snd b).close.isSome) →
      run env = ⟨.aborted .InsufficientDataError, false, false, [], none⟩) := by
  have hrun : ∀ e, calculate_price_difference stock_data = .error e →
      run env = ⟨.aborted e, false, false, [], none⟩ := by
    intro e he
    unfold run
    simp only [hs, he]
  rcases calculate_short_error stock_data hlen with he | he
  · exact ⟨by rw [hrun _ he], ⟨_, hrun _ he⟩, fun _ => hrun _ he⟩
  · refine ⟨by rw [hrun _ he], ⟨_, hrun _ he⟩, fun hnum => ?_⟩
    have h2 := calculate_short_insufficient stock_data hlen hnum
    rw [he] at h2
    simp at h2

/-- C3 amended witness: the empty series aborts the run with
`InsufficientDataError` and no computed change. -/
theorem short_series_never_computes_witness :
    (([] : List (String × Bar)).length < 2) ∧
    (run envEmptySeries).computedChange = none ∧
    run envEmptySeries =
      ⟨.aborted .InsufficientDataError, false, false, [], none⟩ := by
  have h := short_series_never_computes envEmptySeries [] rfl (by decide)
  exact ⟨by decide, h.1, h.2.2 (by simp)⟩

/-- C8 counterexample: a one-entry series whose only close is zero is a
series whose most-recent close is zero, yet the calculator fails with
`InsufficientDataError` (Python's `IndexError` on `data_list[1]` fires
before the division), not with `InvalidPriceError`. -/
theorem zero_close_error_mismatch :
    (seriesOneZero.map Prod.snd).get? 0 = some ⟨some 0⟩ ∧
    calculate_price_difference seriesOneZero =
      .error .InsufficientDataError ∧
    PipelineError.InsufficientDataError ≠ PipelineError.InvalidPriceError := by
  exact ⟨rfl, rfl, by decide⟩

/-- C8 amended: the calculator fails with `InvalidPriceError` whenever the
most-recent close is non-numeric (any series length), and whenever the
most-recent close is zero and the series has at least 2 entries; a
one-entry series with a zero close fails with `InsufficientDataError`
instead. -/
theorem invalid_price_error (data : List (String × Bar)) (b0 : Bar)
    (h0 : (data.map Prod.snd).get? 0 = some b0)
    (h : b0.close = none ∨ (b0.close = some 0 ∧ 1 < data.length)) :
    calculate_price_difference data = .error .InvalidPriceError := by
  rcases h with hn | ⟨hz, hlen⟩
  · unfold calculate_price_difference
    simp only [h0, hn]
  · have hlen' : 1 < (data.map Prod.snd).length := by simpa using hlen
    obtain ⟨b1, h1⟩ : ∃ b1, (data.map Prod.snd).get? 1 = some b1 :=
      ⟨_, List.get?_eq_get hlen'⟩
    unfold calculate_price_difference
    simp only [h0, hz, h1]
    cases hb : b1.close with
    | none => simp [hb]
    | some c1 => simp [hb]

/-- C8 amended witness: a two-entry series with most-recent close zero
fails with `InvalidPriceError`. -/
theorem invalid_price_error_witness :
    (seriesZeroFirst.map Prod.snd).get? 0 = some ⟨some 0⟩ ∧
    calculate_price_difference seriesZeroFirst = .error .InvalidPriceError := by
  exact ⟨rfl, invalid_price_error seriesZeroFirst ⟨some 0⟩ rfl
    (Or.inr ⟨rfl, by decide⟩)⟩

/-- The send loop records one attempt per message, keeping the messages in
order, whatever the per-send outcomes are. -/
theorem sendRun_map_fst (send_ok : ℕ → Bool) (ms : List String) :
    ∀ i, (sendRun send_ok i ms).map Prod.fst = ms := by
  induction ms with
  | nil => intro i; rfl
  | cons m rest ih => intro i; simp [sendRun, ih]

/-- C6: the Notifier attempts exactly one send per message, in list order,
regardless of which individual sends fail; in particular with 3 messages
whose 2nd send fails, messages 1 and 3 are still attempted. -/
theorem notifier_attempts_all (send_ok : ℕ → Bool) (messages : List String) :
    (send_sms_messages send_ok messages).map Prod.fst = messages ∧
    ∀ m1 m2 m3 : String,
      send_sms_messages (fun i => i != 1) [m1, m2, m3] =
        [(m1, true), (m2, false), (m3, true)] :=
  ⟨sendRun_map_fst send_ok messages 0, fun _ _ _ => rfl⟩

/-- Folding append-of-singleton over a list from any accumulator is the
accumulator followed by the map. -/
theorem foldl_append_singleton {α β : Type} (f : α → β) :
    ∀ (l : List α) (acc : List β),
      l.foldl (fun r x => r ++ [f x]) acc = acc ++ l.map f := by
  intro l
  induction l with
  | nil => intro acc; simp
  | cons x xs ih => intro acc; simp [ih]

/-- The formatter is the map of the per-article message over the input
list. -/
theorem format_news_articles_eq_map (articles : List Article) (sym : String)
    (p : ℤ) (d : String) :
    format_news_articles articles sym p d =
      articles.map (formatMessage sym d p) := by
  have hbody : format_news_articles articles sym p d =
      articles.foldl (fun r a => r ++ [formatMessage sym d p a]) [] := rfl
  rw [hbody, foldl_append_singleton]
  simp

/-- A formatted message is never the empty string (it contains the literal
`"%\nManchete: "` among other parts). -/
theorem formatMessage_ne_empty (sym d : String) (p : ℤ) (a : Article) :
    formatMessage sym d p a ≠ "" := by
  intro h
  have hl := congrArg String.length h
  simp only [formatMessage, String.length_append] at hl
  have hml : 0 < ("%\nManchete: ").length := by decide
  simp only [String.length_empty] at hl
  omega

/-- C7: for every article list, symbol, percent and direction, the
formatter never fails and returns exactly one text block per article in
input order; each block is the concatenation of the symbol, the
direction-and-percent, the article's headline (a placeholder string when
the title key is missing) and its summary (a placeholder when the
description key is missing), and every produced message body is
non-empty. -/
theorem formatter_total (articles : List Article) (sym : String) (p : ℤ)
    (d : String) :
    format_news_articles articles sym p d =
      articles.map (formatMessage sym d p) ∧
    (format_news_articles articles sym p d).length = articles.length ∧
    (∀ a : Article, formatMessage sym d p a =
      sym ++ ": " ++ d ++ toString p ++ "%\nManchete: " ++
        articleHeadline a ++ ". \nResumo: " ++ articleBrief a) ∧
    (∀ a : Article, a.title = none →
      articleHeadline a = "Título não disponível") ∧
    (∀ a : Article, a.description = none →
      articleBrief a = "Descrição não disponível") ∧
    (∀ msg ∈ format_news_articles articles sym p d, msg ≠ "") := by
  refine ⟨format_news_articles_eq_map articles sym p d, ?_, fun a => rfl,
    ?_, ?_, ?_⟩
  · rw [format_news_articles_eq_map]
    exact List.length_map articles _
  · intro a ha
    simp [articleHeadline, ha]
  · intro a ha
    simp [articleBrief, ha]
  · intro msg hmsg
    rw [format_news_articles_eq_map] at hmsg
    obtain ⟨a, _, rfl⟩ := List.mem_map.mp hmsg
    exact formatMessage_ne_empty sym d p a

/-- C7 witness: one article with both keys missing produces exactly one
non-empty message using both placeholders. -/
theorem formatter_total_witness :
    (Article.mk none none).title = none ∧
    (Article.mk none none).description = none ∧
    (format_news_articles [⟨none, none⟩] "TSLA" 4 "🔺").length = 1 ∧
    articleHeadline ⟨none, none⟩ = "Título não disponível" ∧
    articleBrief ⟨none, none⟩ = "Descrição não disponível" ∧
    ∀ msg ∈ format_news_articles [⟨none, none⟩] "TSLA" 4 "🔺", msg ≠ "" := by
  have h := formatter_total [⟨none, none⟩] "TSLA" 4 "🔺"
  exact ⟨rfl, rfl, h.2.1.trans rfl, h.2.2.2.1 _ rfl, h.2.2.2.2.1 _ rfl,
    h.2.2.2.2.2⟩

/-- C10: the formatter substitutes the placeholder exactly when the key is
absent from the article mapping; a key present but bound to `null` is
rendered as the text `"None"`, not as the placeholder. -/
theorem placeholder_only_when_absent (a b : Article) (sym d : String)
    (p : ℤ)
    (hat : a.title = none) (had : a.description = none)
    (hbt : b.title = some JsonVal.null)
    (hbd : b.description = some JsonVal.null) :
    format_news_articles [a] sym p d =
      [sym ++ ": " ++ d ++ toString p ++ "%\nManchete: " ++
        "Título não disponível" ++ ". \nResumo: " ++
        "Descrição não disponível"] ∧
    format_news_articles [b] sym p d =
      [sym ++ ": " ++ d ++ toString p ++ "%\nManchete: " ++ "None" ++
        ". \nResumo: " ++ "None"] ∧
    ("None" : String) ≠ "Título não disponível" ∧
    ("None" : String) ≠ "Descrição não disponível" := by
  refine ⟨?_, ?_, by decide, by decide⟩
  · simp [format_news_articles, hat, had]
  · simp [format_news_articles, hbt, hbd, JsonVal.render]

/-- C10 witness: concrete articles, one with both keys absent and one with
both keys bound to `null`. -/
theorem placeholder_only_when_absent_witness :
    format_news_articles [⟨none, none⟩] "TSLA" 4 "🔻" =
      ["TSLA" ++ ": " ++ "🔻" ++ toString (4 : ℤ) ++ "%\nManchete: " ++
        "Título não disponível" ++ ". \nResumo: " ++
        "Descrição não disponível"] ∧
    format_news_articles [⟨some JsonVal.null, some JsonVal.null⟩] "TSLA" 4
        "🔻" =
      ["TSLA" ++ ": " ++ "🔻" ++ toString (4 : ℤ) ++ "%\nManchete: " ++
        "None" ++ ". \nResumo: " ++ "None"] := by
  have h := placeholder_only_when_absent ⟨none, none⟩
    ⟨some JsonVal.null, some JsonVal.null⟩ "TSLA" "🔻" 4 rfl rfl rfl rfl
  exact ⟨h.1, h.2.1⟩
